import Mathlib

/-!
Verification development for the argusclient library (`argusclient/client.py`).

The development shallowly embeds the two stateful cores of the library:

* the authentication/session-refresh protocol (`auto_auth`, `retry_auth`,
  `ArgusServiceClient` credential state), and
* the lazily-materialized local object caches (`BaseModelServiceClient`,
  `BaseUpdatableModelServiceClient` and the alert trigger/notification
  subclasses).

Python falsiness of credential strings is modelled by the empty string
(`""` plays the role of `None`/empty).  Python exceptions are modelled by an
explicit error type threaded through `Except`.  Network traffic is modelled by
an oracle ("world") giving the response of each endpoint, and every operation
returns, alongside its result and the new state, the number of network calls
it issued.
-/

namespace Argus

/-- Errors raised by the client, mirroring the Python exception taxonomy:
`ArgusAuthException`, `ArgusObjectNotFoundException`, generic
`ArgusException`, and the builtin `ValueError`, `TypeError`, `KeyError`. -/
inductive PyErr where
  | argusAuth
  | argusNotFound
  | argus
  | valueError
  | typeError
  | keyError
  deriving DecidableEq, Repr

/-- Credential state owned by `ArgusServiceClient`: `user`, `password`,
`refreshToken`, `accessToken`.  The empty string models an absent/falsy
value, matching Python truthiness tests such as `if not argus.accessToken`. -/
structure Creds where
  user : String
  password : String
  refreshToken : String
  accessToken : String
  deriving DecidableEq, Repr

/-- The authentication endpoints of the remote service: the refresh call
(`POST v2/auth/token/refresh`) maps a refresh token to a new access token,
and the login call (`POST v2/auth/login`) maps (username, password) to a
(refreshToken, accessToken) pair. -/
structure AuthWorld where
  refresh : String → Except PyErr String
  login : String → String → Except PyErr (String × String)

/-- Result of the token-acquisition phase of `auto_auth` (the code before the
wrapped call is attempted): possibly an error, the updated credential state,
and how many refresh/login network calls were made. -/
structure AcqResult where
  err : Option PyErr
  creds : Creds
  refreshCalls : Nat
  loginCalls : Nat
  deriving Repr

/-- The refresh block of `auto_auth` (client.py lines 821-831): if
`accessToken` is falsy and `refreshToken` is truthy, attempt a refresh
call; on success store the returned access token; an `ArgusAuthException`
from the refresh is swallowed when a password is present and propagated
otherwise; any other error propagates.  Result: (pending error, updated
credentials, number of refresh calls). -/
def step_refresh (w : AuthWorld) (c : Creds) : Option PyErr × Creds × Nat :=
  if c.accessToken = "" ∧ c.refreshToken ≠ "" then
    match w.refresh c.refreshToken with
    | .ok tok => (none, { c with accessToken := tok }, 1)
    | .error .argusAuth =>
        if c.password ≠ "" then (none, c, 1) else (some .argusAuth, c, 1)
    | .error e => (some e, c, 1)
  else (none, c, 0)

/-- The login block of `auto_auth` (client.py lines 832-837), run after the
refresh block (a pending error from which propagates): if `accessToken` is
still falsy and `password` is truthy, clear `refreshToken` and perform a
login call, storing the returned refreshToken and accessToken on success (a
login failure propagates with `refreshToken` already cleared). -/
def step_login (w : AuthWorld) (err? : Option PyErr) (c1 : Creds) (r : Nat) :
    AcqResult :=
  match err? with
  | some e => ⟨some e, c1, r, 0⟩
  | none =>
      if c1.accessToken = "" ∧ c1.password ≠ "" then
        match w.login c1.user c1.password with
        | .ok (rt, at_) => ⟨none, ⟨c1.user, c1.password, rt, at_⟩, r, 1⟩
        | .error e => ⟨some e, { c1 with refreshToken := "" }, r, 1⟩
      else ⟨none, c1, r, 0⟩

/-- The token-acquisition preconditions of `auto_auth`
(client.py lines 821-837): the refresh block followed by the login block. -/
def acquire (w : AuthWorld) (c : Creds) : AcqResult :=
  let s := step_refresh w c
  step_login w s.1 s.2.1 s.2.2

/-- Result of a full `auto_auth`-wrapped call: the outcome, the final
credential state, and the number of refresh, login and target-endpoint
network calls issued. -/
structure AuthResult (α : Type) where
  result : Except PyErr α
  creds : Creds
  refreshCalls : Nat
  loginCalls : Nat
  targetCalls : Nat
  deriving Repr

/-- The target-call phase of `auto_auth` (client.py lines 839-843): perform
the wrapped call; on `ArgusAuthException` clear `accessToken` (only) and
re-raise; all other outcomes leave the credential state untouched. -/
def do_target (target : Creds → Except PyErr α) (c : Creds) :
    Except PyErr α × Creds :=
  match target c with
  | .ok v => (.ok v, c)
  | .error .argusAuth => (.error .argusAuth, { c with accessToken := "" })
  | .error e => (.error e, c)

/-- The `auto_auth` decorator (client.py lines 817-845): run the
token-acquisition preconditions, then attempt the wrapped call, clearing
`accessToken` and re-raising on an authentication failure. -/
def auto_auth (w : AuthWorld) (target : Creds → Except PyErr α) (c : Creds) :
    AuthResult α :=
  let a := acquire w c
  match a.err with
  | some e => ⟨.error e, a.creds, a.refreshCalls, a.loginCalls, 0⟩
  | none =>
      let r := do_target target a.creds
      ⟨r.1, r.2, a.refreshCalls, a.loginCalls, 1⟩

/-- Result of a `retry_auth`-wrapped call: the surfaced outcome, the final
credential state, and how many attempts of the wrapped function ran. -/
structure RetryResult (α : Type) where
  result : Except PyErr α
  creds : Creds
  attempts : Nat
  deriving Repr

/-- The `retry_auth` decorator (client.py lines 800-814): run the wrapped
function; only on an `ArgusAuthException` run it exactly once more, from the
state the first attempt left behind, and surface whatever the second attempt
produces; every other first outcome (success or non-auth error) is surfaced
immediately. -/
def retry_auth (f : Creds → AuthResult α) (c : Creds) : RetryResult α :=
  let r1 := f c
  match r1.result with
  | .error .argusAuth =>
      let r2 := f r1.creds
      ⟨r2.result, r2.creds, 2⟩
  | _ => ⟨r1.result, r1.creds, 1⟩

/-- `ArgusServiceClient._request` (client.py lines 957-968):
`retry_auth` applied on top of `auto_auth` around the raw request. -/
def request (w : AuthWorld) (target : Creds → Except PyErr α) (c : Creds) :
    RetryResult α :=
  retry_auth (auto_auth w target) c

/-! ## The lazily-materialized resource caches -/

/-- A decoded model object.  Only the attributes the cache layer inspects are
modelled: the optional `id` attribute and the `name` attribute (used by the
trigger/notification add paths). -/
structure Obj where
  oid : Option Int
  name : String
  deriving DecidableEq, Repr

/-- `BaseEncodable.argus_id` (model.py lines 38-43):
`hasattr(self, "id") and int(self.id) or None`.  Note the Python quirk: an
object whose `id` is `0` yields `None` (because `0` is falsy). -/
def Obj.argus_id (o : Obj) : Option Int :=
  match o.oid with
  | some i => if i = 0 then none else some i
  | none => none

/-- The local collection `self._coll` is a Python dict keyed by ids (which
are `argus_id` values, hence possibly `None`).  It is modelled as an
association list with CPython dict semantics: assignment to an existing key
updates in place, assignment to a new key appends. -/
abbrev Coll := List (Option Int × Obj)

/-- Python `key in dict`. -/
def dmem (d : Coll) (k : Option Int) : Bool :=
  d.any (fun p => p.1 = k)

/-- Python `dict[key]` lookup (first—and only—entry with the key). -/
def dlookup (d : Coll) (k : Option Int) : Option Obj :=
  (d.find? (fun p => p.1 = k)).map Prod.snd

/-- Python `dict[key] = value`. -/
def dinsert (d : Coll) (k : Option Int) (v : Obj) : Coll :=
  if dmem d k then d.map (fun p => if p.1 = k then (k, v) else p)
  else d ++ [(k, v)]

/-- Python `del dict[key]` / conditional removal (no-op if absent). -/
def dremove (d : Coll) (k : Option Int) : Coll :=
  d.filter (fun p => p.1 ≠ k)

/-- Python `list(dict.keys())`. -/
def dkeys (d : Coll) : List (Option Int) :=
  d.map Prod.fst

/-- `dict((obj.argus_id, obj) for obj in objs)`: fold dict assignment over
the object list (CPython keeps the first-occurrence position and the last
value on duplicate keys). -/
def buildColl (objs : List Obj) : Coll :=
  objs.foldl (fun d o => dinsert d o.argus_id o) []

/-- The mutable state of one `BaseModelServiceClient` instance:
`self._retrieved_all` and `self._coll`. -/
structure CacheState where
  retrievedAll : Bool
  coll : Coll
  deriving DecidableEq, Repr

/-- A freshly constructed cache: `_retrieved_all = False`, `_coll = {}`. -/
def freshCache : CacheState := ⟨false, []⟩

/-- The remote endpoints a cache may hit, as an oracle: the bulk "get all"
request, the per-id GET of `BaseUpdatableModelServiceClient.get`, the PUT of
`update`, the DELETE of `delete` (also used, keyed by the child id, for the
composite-alert child DELETE), the POST of the simple `add` methods, and the
POST of the trigger/notification `add` methods (which return the full list
of child objects). -/
structure CacheWorld where
  bulkResp : Except PyErr (List Obj)
  fetchResp : Int → Except PyErr Obj
  putResp : Int → Obj → Except PyErr Obj
  deleteResp : Int → Except PyErr Unit
  postResp : Obj → Except PyErr Obj
  postListResp : Obj → Except PyErr (List Obj)

/-- `BaseModelServiceClient._init_all` (client.py lines 160-169) with its
optional `coll` argument.  If no bulk path is configured, raise `TypeError`.
If `_retrieved_all` is already set, do nothing.  Otherwise take the objects
from `coll or request(...)` — note the Python `or`: an empty `coll` list is
falsy and still triggers the bulk network request — rebuild `_coll` keyed by
`argus_id`, and set `_retrieved_all`.  Returns the outcome, the new state
and the number of network calls issued. -/
def init_all (w : CacheWorld) (hasPath : Bool) (coll? : Option (List Obj))
    (st : CacheState) : Except PyErr CacheState × Nat :=
  if hasPath = false then (.error .typeError, 0)
  else if st.retrievedAll then (.ok st, 0)
  else
    let fetched : Except PyErr (List Obj) × Nat :=
      match coll? with
      | some objs => if objs.isEmpty then (w.bulkResp, 1) else (.ok objs, 0)
      | none => (w.bulkResp, 1)
    match fetched with
    | (.error e, n) => (.error e, n)
    | (.ok objs, n) => (.ok ⟨true, buildColl objs⟩, n)

/-- `BaseModelServiceClient.get` (client.py lines 174-181): if the id is not
in the local collection run `_init_all()`, then return `self._coll[id]`
(which raises `KeyError` when the id is still absent). -/
def base_get (w : CacheWorld) (hasPath : Bool) (st : CacheState) (id : Int) :
    Except PyErr Obj × CacheState × Nat :=
  if dmem st.coll (some id) then
    (match dlookup st.coll (some id) with
     | some v => (.ok v, st, 0)
     | none => (.error .keyError, st, 0))
  else
    match init_all w hasPath none st with
    | (.error e, n) => (.error e, st, n)
    | (.ok st', n) =>
        match dlookup st'.coll (some id) with
        | some v => (.ok v, st', n)
        | none => (.error .keyError, st', n)

/-- The read-only dict-like entry points of `BaseModelServiceClient`:
`items`, `keys`, `values`, `__iter__`, `__len__`, `__contains__`
(client.py lines 189-240).  Each first runs `_init_all()`. -/
inductive ReadOp where
  | itemsOp
  | keysOp
  | valuesOp
  | iterOp
  | lenOp
  | containsOp (k : Option Int)
  deriving DecidableEq, Repr

/-- Run one read-only entry point, returning the new state and the number of
network calls it issued (an `_init_all` failure leaves the state as-is). -/
def runRead (w : CacheWorld) (hasPath : Bool) (_op : ReadOp) (st : CacheState) :
    CacheState × Nat :=
  match init_all w hasPath none st with
  | (.error _, n) => (st, n)
  | (.ok st', n) => (st', n)

/-- Run a sequence of read-only entry points, threading the state and
accumulating the total number of network calls. -/
def runReads (w : CacheWorld) (hasPath : Bool) (ops : List ReadOp)
    (st : CacheState) : CacheState × Nat :=
  match ops with
  | [] => (st, 0)
  | op :: rest =>
      let r := runRead w hasPath op st
      let rs := runReads w hasPath rest r.1
      (rs.1, r.2 + rs.2)

/-- `BaseModelServiceClient.items` (client.py lines 189-195):
`self._init_all(); return self._coll.items()`. -/
def items (w : CacheWorld) (hasPath : Bool) (st : CacheState) :
    Except PyErr Coll × CacheState × Nat :=
  match init_all w hasPath none st with
  | (.error e, n) => (.error e, st, n)
  | (.ok st', n) => (.ok st'.coll, st', n)

/-- `BaseModelServiceClient.keys` (client.py lines 197-203):
`self._init_all(); return self._coll.items()` — the body returns
`items()`, not the key view. -/
def keys (w : CacheWorld) (hasPath : Bool) (st : CacheState) :
    Except PyErr Coll × CacheState × Nat :=
  match init_all w hasPath none st with
  | (.error e, n) => (.error e, st, n)
  | (.ok st', n) => (.ok st'.coll, st', n)

/-- `BaseModelServiceClient.values` (client.py lines 205-211):
`self._init_all(); return self._coll.values()`. -/
def values (w : CacheWorld) (hasPath : Bool) (st : CacheState) :
    Except PyErr (List Obj) × CacheState × Nat :=
  match init_all w hasPath none st with
  | (.error e, n) => (.error e, st, n)
  | (.ok st', n) => (.ok (st'.coll.map Prod.snd), st', n)

/-- `BaseModelServiceClient.__contains__` (client.py lines 238-240):
`self._init_all(); return key in self._coll`. -/
def containsKey (w : CacheWorld) (hasPath : Bool) (st : CacheState)
    (k : Option Int) : Except PyErr Bool × CacheState × Nat :=
  match init_all w hasPath none st with
  | (.error e, n) => (.error e, st, n)
  | (.ok st', n) => (.ok (dmem st'.coll k), st', n)

/-- `BaseUpdatableModelServiceClient.get` (client.py lines 324-332):
`ValueError` on a `None` id, `int(id)` conversion, per-id GET on a cache
miss, local hit otherwise. -/
def upd_get (w : CacheWorld) (st : CacheState) (id : Option Int) :
    Except PyErr Obj × CacheState × Nat :=
  match id with
  | none => (.error .valueError, st, 0)
  | some id =>
      if dmem st.coll (some id) then
        (match dlookup st.coll (some id) with
         | some v => (.ok v, st, 0)
         | none => (.error .keyError, st, 0))
      else
        match w.fetchResp id with
        | .error e => (.error e, st, 1)
        | .ok v => (.ok v, ⟨st.retrievedAll, dinsert st.coll (some id) v⟩, 1)

/-- `BaseUpdatableModelServiceClient.update` (client.py lines 334-347):
`ValueError` on a falsy id, `ValueError` if the object has no `argus_id` or
its `argus_id` differs from `id`, otherwise a remote PUT whose result
overwrites the cached entry. -/
def upd_update (w : CacheWorld) (st : CacheState) (id : Int) (obj : Obj) :
    Except PyErr Obj × CacheState × Nat :=
  if id = 0 then (.error .valueError, st, 0)
  else if obj.argus_id = none then (.error .valueError, st, 0)
  else if obj.argus_id ≠ some id then (.error .valueError, st, 0)
  else
    match w.putResp id obj with
    | .error e => (.error e, st, 1)
    | .ok v => (.ok v, ⟨st.retrievedAll, dinsert st.coll (some id) v⟩, 1)

/-- `NamespacesServiceClient.update` (client.py lines 282-293): same checks
as the updatable-cache `update` (falsy id, missing `argus_id`, id mismatch)
followed by the remote PUT and the cache overwrite. -/
def ns_update (w : CacheWorld) (st : CacheState) (id : Int) (obj : Obj) :
    Except PyErr Obj × CacheState × Nat :=
  if id = 0 then (.error .valueError, st, 0)
  else if obj.argus_id = none then (.error .valueError, st, 0)
  else if obj.argus_id ≠ some id then (.error .valueError, st, 0)
  else
    match w.putResp id obj with
    | .error e => (.error e, st, 1)
    | .ok v => (.ok v, ⟨st.retrievedAll, dinsert st.coll (some id) v⟩, 1)

/-- `BaseUpdatableModelServiceClient.delete` (client.py lines 349-357):
`ValueError` on a falsy id, then the remote DELETE, and only afterwards the
conditional local removal. -/
def upd_delete (w : CacheWorld) (st : CacheState) (id : Int) :
    Except PyErr Unit × CacheState × Nat :=
  if id = 0 then (.error .valueError, st, 0)
  else
    match w.deleteResp id with
    | .error e => (.error e, st, 1)
    | .ok _ => (.ok (), ⟨st.retrievedAll, dremove st.coll (some id)⟩, 1)

/-- The simple `add` methods (`NamespacesServiceClient.add`,
`DashboardsServiceClient.add`, client.py lines 295-305 and 376-386):
`ValueError` if the object already has an id, then the remote POST, and only
on success the insertion of the server-returned object keyed by its id. -/
def simple_add (w : CacheWorld) (st : CacheState) (obj : Obj) :
    Except PyErr Obj × CacheState × Nat :=
  if obj.argus_id ≠ none then (.error .valueError, st, 0)
  else
    match w.postResp obj with
    | .error e => (.error e, st, 1)
    | .ok v => (.ok v, ⟨st.retrievedAll, dinsert st.coll v.argus_id v⟩, 1)

/-- `AlertsServiceClient.delete_child_alert_from_composite_alert`
(client.py lines 706-724): validations, then the local cache removal of the
child id, and only afterwards the remote DELETE — the one mutator that
touches the cache before the remote call. -/
def delete_child (w : CacheWorld) (st : CacheState)
    (compAlertId childAlertId : Int) : Except PyErr Unit × CacheState × Nat :=
  if compAlertId = 0 then (.error .valueError, st, 0)
  else if childAlertId = 0 then (.error .valueError, st, 0)
  else
    let st' : CacheState := ⟨st.retrievedAll, dremove st.coll (some childAlertId)⟩
    match w.deleteResp childAlertId with
    | .error e => (.error e, st', 1)
    | .ok _ => (.ok (), st', 1)

/-! ## The alert-owned nested trigger/notification caches -/

/-- The state visible to an `AlertTriggersServiceClient` (and, identically
shaped, an `AlertNotificationsServiceClient`): its cache plus the owning
alert's denormalized id list (`alert.triggerIds` / `alert.notificationIds`). -/
structure NestedState where
  cache : CacheState
  ids : List (Option Int)
  deriving DecidableEq, Repr

/-- `AlertTriggersServiceClient.add` (client.py lines 743-757; the
notification `add` at lines 779-793 is structurally identical):
`ValueError` if the trigger already has an id; POST the trigger, getting
back the full trigger list; `self._init_all(triggers)` (a no-op when
`_retrieved_all` is already set); set `alert.triggerIds` from the returned
list; finally return the returned trigger whose `name` matches, raising
`ArgusException` if none does. -/
def nested_add (w : CacheWorld) (st : NestedState) (t : Obj) :
    Except PyErr Obj × NestedState × Nat :=
  if t.argus_id ≠ none then (.error .valueError, st, 0)
  else
    match w.postListResp t with
    | .error e => (.error e, st, 1)
    | .ok triggers =>
        match init_all w true (some triggers) st.cache with
        | (.error e, n) => (.error e, st, 1 + n)
        | (.ok cache', n) =>
            let ids' := triggers.map Obj.argus_id
            match triggers.find? (fun x => x.name = t.name) with
            | some tr => (.ok tr, ⟨cache', ids'⟩, 1 + n)
            | none => (.error .argus, ⟨cache', ids'⟩, 1 + n)

/-- `AlertTriggersServiceClient.delete` (client.py lines 759-761; the
notification `delete` at lines 795-797 is identical): the inherited delete
(remote DELETE first, then local removal), then recompute the owning alert's
id list as `list(self._coll.keys())`. -/
def nested_delete (w : CacheWorld) (st : NestedState) (id : Int) :
    Except PyErr Unit × NestedState × Nat :=
  match upd_delete w st.cache id with
  | (.error e, cache', n) => (.error e, ⟨cache', st.ids⟩, n)
  | (.ok _, cache', n) => (.ok (), ⟨cache', dkeys cache'.coll⟩, n)

/-! ## Concrete worlds and states used to instantiate the theorems -/

/-- A world whose per-id GET always answers 404 and whose mutating
endpoints always fail with a generic error. -/
def cworld0 : CacheWorld where
  bulkResp := .ok []
  fetchResp := fun _ => .error .argusNotFound
  putResp := fun _ _ => .error .argus
  deleteResp := fun _ => .error .argus
  postResp := fun _ => .error .argus
  postListResp := fun _ => .error .argus

/-- A world whose every endpoint fails with a generic error. -/
def cworldFail : CacheWorld where
  bulkResp := .error .argus
  fetchResp := fun _ => .error .argus
  putResp := fun _ _ => .error .argus
  deleteResp := fun _ => .error .argus
  postResp := fun _ => .error .argus
  postListResp := fun _ => .error .argus

/-- A cache already holding the object with id 3. -/
def stW5 : CacheState := ⟨false, [(some 3, ⟨some 3, "obj3"⟩)]⟩

/-- A fully-retrieved empty cache. -/
def stC7 : CacheState := ⟨true, []⟩

/-- A fully-retrieved cache holding the child alert with id 5. -/
def stC6 : CacheState := ⟨true, [(some 5, ⟨some 5, "child5"⟩)]⟩

/-! ## Dictionary lemmas -/

lemma dlookup_isSome (d : Coll) (k : Option Int) :
    (dlookup d k).isSome = dmem d k := by
  induction d with
  | nil => rfl
  | cons p rest ih =>
      by_cases h : p.1 = k
      · simp [dlookup, dmem, h]
      · simp only [dlookup, dmem] at ih ⊢
        rw [List.find?_cons_of_neg _ (by simpa using h), List.any_cons]
        simp [h, ih]

lemma dlookup_some_of_dmem {d : Coll} {k : Option Int} (h : dmem d k = true) :
    ∃ v, dlookup d k = some v := by
  have := dlookup_isSome d k
  rw [h] at this
  exact Option.isSome_iff_exists.mp this

lemma dlookup_none_of_not_dmem {d : Coll} {k : Option Int}
    (h : dmem d k = false) : dlookup d k = none := by
  have := dlookup_isSome d k
  rw [h] at this
  exact Option.not_isSome_iff_eq_none.mp (by simp [this])

lemma dmem_iff_mem_dkeys (d : Coll) (k : Option Int) :
    dmem d k = true ↔ k ∈ dkeys d := by
  simp [dmem, dkeys, List.any_eq_true, List.mem_map]

lemma dkeys_dinsert_of_not_dmem (d : Coll) (k : Option Int) (v : Obj)
    (h : dmem d k = false) : dkeys (dinsert d k v) = dkeys d ++ [k] := by
  simp [dinsert, h, dkeys]

lemma buildColl_go (objs : List Obj) :
    ∀ acc : Coll, (∀ o ∈ objs, dmem acc o.argus_id = false) →
      (objs.map Obj.argus_id).Nodup →
      dkeys (List.foldl (fun d o => dinsert d o.argus_id o) acc objs) =
        dkeys acc ++ objs.map Obj.argus_id := by
  induction objs with
  | nil => intro acc _ _; simp
  | cons o rest ih =>
      intro acc hfresh hnodup
      have hmem : dmem acc o.argus_id = false := hfresh o (by simp)
      have hkeys : dkeys (dinsert acc o.argus_id o) = dkeys acc ++ [o.argus_id] :=
        dkeys_dinsert_of_not_dmem acc o.argus_id o hmem
      have hnodup' : (rest.map Obj.argus_id).Nodup := by
        simpa using (List.nodup_cons.mp (by simpa using hnodup)).2
      have hhead : o.argus_id ∉ rest.map Obj.argus_id :=
        (List.nodup_cons.mp (by simpa using hnodup)).1
      have hfresh' : ∀ o' ∈ rest, dmem (dinsert acc o.argus_id o) o'.argus_id = false := by
        intro o' ho'
        by_cases hcase : dmem (dinsert acc o.argus_id o) o'.argus_id = true
        · exfalso
          have := (dmem_iff_mem_dkeys _ _).mp hcase
          rw [hkeys] at this
          rcases List.mem_append.mp this with hin | hin
          · have := (dmem_iff_mem_dkeys acc o'.argus_id).mpr hin
            rw [hfresh o' (by simp [ho'])] at this
            exact Bool.false_ne_true this
          · have heq : o'.argus_id = o.argus_id := by simpa using hin
            exact hhead (heq ▸ List.mem_map_of_mem Obj.argus_id ho')
        · simpa using hcase
      calc dkeys (List.foldl (fun d o => dinsert d o.argus_id o)
              (dinsert acc o.argus_id o) rest)
          = dkeys (dinsert acc o.argus_id o) ++ rest.map Obj.argus_id :=
            ih (dinsert acc o.argus_id o) hfresh' hnodup'
        _ = dkeys acc ++ (o :: rest).map Obj.argus_id := by
            rw [hkeys]; simp

lemma dkeys_buildColl (objs : List Obj)
    (h : (objs.map Obj.argus_id).Nodup) :
    dkeys (buildColl objs) = objs.map Obj.argus_id := by
  have := buildColl_go objs [] (by intro o _; rfl) h
  simpa [buildColl] using this

/-! ## Read-path lemmas -/

lemma runRead_retrieved (w : CacheWorld) (op : ReadOp) (st : CacheState)
    (h : st.retrievedAll = true) : runRead w true op st = (st, 0) := by
  simp [runRead, init_all, h]

lemma runReads_retrieved (w : CacheWorld) (ops : List ReadOp) (st : CacheState)
    (h : st.retrievedAll = true) : runReads w true ops st = (st, 0) := by
  induction ops with
  | nil => rfl
  | cons op rest ih => simp [runReads, runRead_retrieved w op st h, ih]

lemma runRead_fresh (w : CacheWorld) (op : ReadOp) (objs : List Obj)
    (hbulk : w.bulkResp = .ok objs) :
    runRead w true op freshCache = (⟨true, buildColl objs⟩, 1) := by
  simp [runRead, init_all, freshCache, hbulk]

/-! ## The claims -/

/-- C10: for every cache state, `keys()` returns exactly the same value as
`items()` — the collection of (id, object) pairs — rather than the
collection of ids alone (its body literally returns `self._coll.items()`). -/
theorem claim_C10 (w : CacheWorld) (hasPath : Bool) (st : CacheState) :
    keys w hasPath st = items w hasPath st := rfl

/-- C4: on a cache with a bulk-fetch path configured, any nonempty sequence
of `items`/`values`/`keys`/iteration/length/membership calls starting from a
fresh cache issues exactly one bulk-fetch network call in total, leaves the
retrieved-all flag set, and from any state with the flag already set such a
sequence issues zero network calls and does not change the state. -/
theorem claim_C4 (w : CacheWorld) (objs : List Obj)
    (hbulk : w.bulkResp = .ok objs) (ops : List ReadOp) (hne : ops ≠ []) :
    (runReads w true ops freshCache).2 = 1 ∧
    (runReads w true ops freshCache).1.retrievedAll = true ∧
    (∀ st : CacheState, st.retrievedAll = true → runReads w true ops st = (st, 0)) := by
  refine ⟨?_, ?_, fun st h => runReads_retrieved w ops st h⟩ <;>
  · cases ops with
    | nil => exact absurd rfl hne
    | cons op rest =>
        simp [runReads, runRead_fresh w op objs hbulk,
          runReads_retrieved w rest ⟨true, buildColl objs⟩ rfl]

/-- C4 witness: two consecutive `items()` calls on a fresh cache against a
world whose bulk fetch returns an empty collection issue exactly one network
call. -/
theorem claim_C4_witness :
    (runReads cworld0 true [ReadOp.itemsOp, ReadOp.itemsOp] freshCache).2 = 1 :=
  (claim_C4 cworld0 [] rfl [ReadOp.itemsOp, ReadOp.itemsOp] (by decide)).1

/-- C5: for every cache and every id already present in the local
collection, `get(id)` returns the locally stored object and issues zero
network calls, both on the bulk-fetch-only base cache and on the updatable
cache with a per-id fetch path. -/
theorem claim_C5 (w : CacheWorld) (hasPath : Bool) (st : CacheState) (id : Int)
    (h : dmem st.coll (some id) = true) :
    ∃ v, dlookup st.coll (some id) = some v ∧
      base_get w hasPath st id = (.ok v, st, 0) ∧
      upd_get w st (some id) = (.ok v, st, 0) := by
  obtain ⟨v, hv⟩ := dlookup_some_of_dmem h
  exact ⟨v, hv, by simp [base_get, h, hv], by simp [upd_get, h, hv]⟩

/-- C5 witness: looking up id 3 in a cache already holding it issues zero
network calls on both cache variants. -/
theorem claim_C5_witness :
    ∃ v, dlookup stW5.coll (some 3) = some v ∧
      base_get cworld0 true stW5 3 = (.ok v, stW5, 0) ∧
      upd_get cworld0 stW5 (some 3) = (.ok v, stW5, 0) :=
  claim_C5 cworld0 true stW5 3 (by decide)

/-- C8: for every updatable cache, every id, and every object whose own id
field differs from that id (or whose id is missing), `update(id, object)`
fails with `ValueError`, issues zero network calls and leaves the cache
unchanged — both on the generic updatable cache and on the namespaces
client. -/
theorem claim_C8 (w : CacheWorld) (st : CacheState) (id : Int) (obj : Obj)
    (h : obj.argus_id ≠ some id) :
    upd_update w st id obj = (.error .valueError, st, 0) ∧
    ns_update w st id obj = (.error .valueError, st, 0) := by
  by_cases hid : id = 0
  · simp [upd_update, ns_update, hid]
  · by_cases hnone : obj.argus_id = none
    · simp [upd_update, ns_update, hid, hnone]
    · simp [upd_update, ns_update, hid, hnone, h]

/-- C8 witness: updating id 7 with an object carrying id 4 fails with
`ValueError` and zero network calls on both update paths. -/
theorem claim_C8_witness :
    upd_update cworld0 stW5 7 ⟨some 4, "x"⟩ = (.error .valueError, stW5, 0) ∧
    ns_update cworld0 stW5 7 ⟨some 4, "x"⟩ = (.error .valueError, stW5, 0) :=
  claim_C8 cworld0 stW5 7 ⟨some 4, "x"⟩ (by decide)

/-- C7 counterexample: on a fully-retrieved bulk-only cache, `get` of an
absent id issues zero network calls but fails with `KeyError` (the raw
Python dict lookup), not with the not-found error the claim requires. -/
theorem claim_C7_counterexample :
    base_get cworld0 true stC7 5 = (.error .keyError, stC7, 0) ∧
    PyErr.keyError ≠ PyErr.argusNotFound :=
  ⟨rfl, by decide⟩

/-- C7 (amended): once the retrieved-all flag is true, `get(id)` for an
absent id never re-issues the bulk fetch; on the bulk-only base cache the
lookup then fails with `KeyError` and zero network calls, while on the
updatable cache the single per-id fetch is made and a 404 from it surfaces
as the not-found error. -/
theorem claim_C7_amended (w : CacheWorld) (st : CacheState) (id : Int)
    (hall : st.retrievedAll = true) (habs : dmem st.coll (some id) = false) :
    base_get w true st id = (.error .keyError, st, 0) ∧
    (w.fetchResp id = .error .argusNotFound →
      upd_get w st (some id) = (.error .argusNotFound, st, 1)) := by
  have hnone := dlookup_none_of_not_dmem habs
  constructor
  · simp [base_get, habs, init_all, hall, hnone]
  · intro hfetch
    simp [upd_get, habs, hfetch]

/-- C7 witness: the amended statement instantiated on a fully-retrieved
empty cache and a 404-answering world. -/
theorem claim_C7_witness :
    base_get cworld0 true stC7 7 = (.error .keyError, stC7, 0) ∧
    upd_get cworld0 stC7 (some 7) = (.error .argusNotFound, stC7, 1) :=
  ⟨(claim_C7_amended cworld0 stC7 7 rfl (by decide)).1,
   (claim_C7_amended cworld0 stC7 7 rfl (by decide)).2 rfl⟩

/-- C6 counterexample: `delete_child_alert_from_composite_alert` removes the
child from the local cache before the remote call, so when the remote DELETE
fails the local cache is no longer what it was before the operation. -/
theorem claim_C6_counterexample :
    (delete_child cworldFail stC6 1 5).1 = .error .argus ∧
    (delete_child cworldFail stC6 1 5).2.1 ≠ stC6 :=
  ⟨rfl, by decide⟩

/-- C6 (amended): `add`, `update` and `delete` on the updatable caches (and
the nested trigger/notification delete) perform the remote call before any
local cache mutation, so a remote failure of any kind leaves the cache
exactly as it was; the one exception is composite-alert child deletion,
which evicts the child locally before the remote call, so a remote failure
leaves the child already removed. -/
theorem claim_C6_amended (w : CacheWorld) (st : CacheState) (nst : NestedState)
    (id : Int) (obj : Obj) (e : PyErr) (hid : id ≠ 0) :
    (w.deleteResp id = .error e → upd_delete w st id = (.error e, st, 1)) ∧
    (obj.argus_id = some id → w.putResp id obj = .error e →
      upd_update w st id obj = (.error e, st, 1) ∧
      ns_update w st id obj = (.error e, st, 1)) ∧
    (∀ o : Obj, o.argus_id = none → w.postResp o = .error e →
      simple_add w st o = (.error e, st, 1)) ∧
    (w.deleteResp id = .error e → nested_delete w nst id = (.error e, nst, 1)) ∧
    (∀ compId : Int, compId ≠ 0 → w.deleteResp id = .error e →
      delete_child w st compId id =
        (.error e, ⟨st.retrievedAll, dremove st.coll (some id)⟩, 1)) := by
  refine ⟨fun hdel => ?_, fun hobj hput => ?_, fun o hobj hpost => ?_,
    fun hdel => ?_, fun compId hcomp hdel => ?_⟩
  · simp [upd_delete, hid, hdel]
  · have hne : obj.argus_id ≠ none := by simp [hobj]
    constructor <;> simp [upd_update, ns_update, hid, hne, hobj, hput]
  · simp [simple_add, hobj, hpost]
  · simp [nested_delete, upd_delete, hid, hdel]
  · simp [delete_child, hid, hcomp, hdel]

/-- C6 witness: the amended statement instantiated on concrete states
against a world whose mutating endpoints all fail. -/
theorem claim_C6_witness :
    upd_delete cworldFail stC6 5 = (.error .argus, stC6, 1) ∧
    upd_update cworldFail stC6 5 ⟨some 5, "child5"⟩ = (.error .argus, stC6, 1) ∧
    simple_add cworldFail stC6 ⟨none, "fresh"⟩ = (.error .argus, stC6, 1) ∧
    nested_delete cworldFail ⟨stC6, [some 5]⟩ 5 = (.error .argus, ⟨stC6, [some 5]⟩, 1) ∧
    delete_child cworldFail stC6 1 5 =
      (.error .argus, ⟨stC6.retrievedAll, dremove stC6.coll (some 5)⟩, 1) := by
  have h := claim_C6_amended cworldFail stC6 ⟨stC6, [some 5]⟩ 5
    ⟨some 5, "child5"⟩ PyErr.argus (by decide)
  exact ⟨h.1 rfl, (h.2.1 (by decide) rfl).1,
    h.2.2.1 ⟨none, "fresh"⟩ rfl rfl, h.2.2.2.1 rfl, h.2.2.2.2 1 (by decide) rfl⟩

/-! ## C9: the nested trigger/notification caches and the parent id lists -/

/-- The triggers returned by the server in the C9 scenarios. -/
def oT1 : Obj := ⟨some 1, "t1"⟩

/-- The second, newly added trigger in the C9 scenarios. -/
def oT2 : Obj := ⟨some 2, "t2"⟩

/-- The new trigger being added in the C9 scenarios (no id yet). -/
def tNew : Obj := ⟨none, "t2"⟩

/-- A world whose trigger POST returns the full list `[oT1, oT2]` and whose
per-id GET succeeds. -/
def cworldTrig : CacheWorld where
  bulkResp := .ok []
  fetchResp := fun _ => .ok oT2
  putResp := fun _ _ => .error .argus
  deleteResp := fun _ => .ok ()
  postResp := fun _ => .error .argus
  postListResp := fun _ => .ok [oT1, oT2]

/-- A nested-cache state that was already fully retrieved (holding only the
trigger with id 1) before the add. -/
def stC9 : NestedState := ⟨⟨true, [(some 1, oT1)]⟩, [some 1]⟩

/-- C9 counterexample: adding a trigger to an alert whose trigger cache was
already fully retrieved succeeds, yet afterwards the alert's `triggerIds`
differs from the ids in the nested cache (the cache is left stale because
`_init_all` is a no-op once `_retrieved_all` is set), and a subsequent
`get` of the new trigger's id issues a network call instead of zero. -/
theorem claim_C9_counterexample :
    (nested_add cworldTrig stC9 tNew).1 = .ok oT2 ∧
    (nested_add cworldTrig stC9 tNew).2.1.ids ≠
      dkeys (nested_add cworldTrig stC9 tNew).2.1.cache.coll ∧
    (upd_get cworldTrig (nested_add cworldTrig stC9 tNew).2.1.cache (some 2)).2.2 = 1 :=
  ⟨rfl, by decide, rfl⟩

/-- C9 (amended): after a successful nested `delete` the owning alert's id
list equals the ids in the nested cache; after a successful `add` the id
list is recomputed from the server-returned list with no extra round trip,
and when the nested cache had not been bulk-populated before the add (its
retrieved-all flag still false) that list also equals the ids now in the
cache, making a subsequent `get` of the new trigger's id free; if the cache
was already fully retrieved the add leaves it stale (see the
counterexample). -/
theorem claim_C9_amended (w : CacheWorld) :
    (∀ (st : NestedState) (id : Int), id ≠ 0 → w.deleteResp id = .ok () →
      (nested_delete w st id).2.1.ids =
        dkeys (nested_delete w st id).2.1.cache.coll) ∧
    (∀ (st : NestedState) (t tr : Obj) (triggers : List Obj),
      st.cache.retrievedAll = false → t.argus_id = none →
      w.postListResp t = .ok triggers → triggers ≠ [] →
      (triggers.map Obj.argus_id).Nodup →
      triggers.find? (fun x => x.name = t.name) = some tr →
      (nested_add w st t).1 = .ok tr ∧
      (nested_add w st t).2.2 = 1 ∧
      (nested_add w st t).2.1.ids = triggers.map Obj.argus_id ∧
      (nested_add w st t).2.1.ids =
        dkeys (nested_add w st t).2.1.cache.coll ∧
      (∀ k : Int, tr.argus_id = some k →
        (upd_get w (nested_add w st t).2.1.cache (some k)).2.2 = 0)) := by
  constructor
  · intro st id hid hok
    simp [nested_delete, upd_delete, hid, hok]
  · intro st t tr triggers hfresh hnew hpost hne hnodup hfind
    have hne' : triggers.isEmpty = false := by
      cases triggers with
      | nil => exact absurd rfl hne
      | cons a l => rfl
    have heval : nested_add w st t =
        (.ok tr, ⟨⟨true, buildColl triggers⟩, triggers.map Obj.argus_id⟩, 1) := by
      simp [nested_add, hnew, hpost, init_all, hfresh, hne', hfind]
    have hkeys : dkeys (buildColl triggers) = triggers.map Obj.argus_id :=
      dkeys_buildColl triggers hnodup
    refine ⟨by rw [heval], by rw [heval], by rw [heval], by rw [heval]; exact hkeys.symm, ?_⟩
    intro k hk
    have htr : tr ∈ triggers := List.mem_of_find?_eq_some hfind
    have hmemkeys : (some k) ∈ dkeys (buildColl triggers) := by
      rw [hkeys]
      exact hk ▸ List.mem_map_of_mem Obj.argus_id htr
    have hmem : dmem (buildColl triggers) (some k) = true :=
      (dmem_iff_mem_dkeys _ _).mpr hmemkeys
    rw [heval]
    rcases hl : dlookup (buildColl triggers) (some k) with _ | v <;>
      simp [upd_get, hmem, hl]

/-- C9 witness: the amended statement instantiated on a fresh nested cache:
the add populates the cache, the id list matches the cache keys, and the
follow-up `get` of the new trigger's id issues zero network calls. -/
theorem claim_C9_witness :
    (nested_add cworldTrig ⟨freshCache, []⟩ tNew).1 = .ok oT2 ∧
    (nested_add cworldTrig ⟨freshCache, []⟩ tNew).2.2 = 1 ∧
    (nested_add cworldTrig ⟨freshCache, []⟩ tNew).2.1.ids =
      [oT1, oT2].map Obj.argus_id ∧
    (nested_add cworldTrig ⟨freshCache, []⟩ tNew).2.1.ids =
      dkeys (nested_add cworldTrig ⟨freshCache, []⟩ tNew).2.1.cache.coll ∧
    (upd_get cworldTrig (nested_add cworldTrig ⟨freshCache, []⟩ tNew).2.1.cache (some 2)).2.2 = 0 := by
  have h := (claim_C9_amended cworldTrig).2 ⟨freshCache, []⟩ tNew oT2 [oT1, oT2]
    rfl rfl rfl (by decide) (by decide) (by decide)
  exact ⟨h.1, h.2.1, h.2.2.1, h.2.2.2.1, h.2.2.2.2 2 rfl⟩

/-! ## C1-C3: the authentication protocol -/

/-- An authentication world in which the stored refresh token is rejected
while the password login succeeds. -/
def authW1 : AuthWorld where
  refresh := fun _ => .error .argusAuth
  login := fun u p => if u = "alice" ∧ p = "pw" then .ok ("rt2", "at2") else .error .argusAuth

/-- An authentication world in which the refresh call succeeds. -/
def authW2 : AuthWorld where
  refresh := fun _ => .ok "at-fresh"
  login := fun _ _ => .error .argusAuth

/-- A target endpoint that succeeds only under the access token minted by
`authW1`'s login. -/
def tgtAt2 : Creds → Except PyErr Nat :=
  fun c => if c.accessToken = "at2" then .ok 7 else .error .argusAuth

/-- A target endpoint that always fails with a generic (non-auth) error. -/
def tgtGeneric : Creds → Except PyErr Nat :=
  fun _ => .error .argus

/-- A target endpoint that always fails with an authentication error. -/
def tgtGenericAuth : Creds → Except PyErr Nat :=
  fun _ => .error .argusAuth

/-- A session holding a password and a (stale) refresh token but no access
token. -/
def credsPw : Creds := ⟨"alice", "pw", "rt-old", ""⟩

/-- A session holding only a refresh token (no password). -/
def credsRtOnly : Creds := ⟨"alice", "", "rt-old", ""⟩

/-- A session already holding an access token. -/
def credsTok : Creds := ⟨"alice", "pw", "rt-old", "at2"⟩

/-- A session holding a stale access token (the target rejects it). -/
def credsStale : Creds := ⟨"alice", "pw", "rt-old", "at-stale"⟩

/-! Evaluation lemmas for the refresh block, the login block, the target
phase and the retry wrapper, one per control-flow branch. -/

lemma step_refresh_skip (w : AuthWorld) (c : Creds)
    (h : ¬(c.accessToken = "" ∧ c.refreshToken ≠ "")) :
    step_refresh w c = (none, c, 0) := by
  unfold step_refresh; rw [if_neg h]

lemma step_refresh_ok (w : AuthWorld) (c : Creds) (tok : String)
    (hat : c.accessToken = "") (hrt : c.refreshToken ≠ "")
    (hr : w.refresh c.refreshToken = .ok tok) :
    step_refresh w c = (none, { c with accessToken := tok }, 1) := by
  unfold step_refresh; rw [if_pos ⟨hat, hrt⟩, hr]

lemma step_refresh_authfail_pw (w : AuthWorld) (c : Creds)
    (hat : c.accessToken = "") (hrt : c.refreshToken ≠ "")
    (hr : w.refresh c.refreshToken = .error .argusAuth)
    (hpw : c.password ≠ "") : step_refresh w c = (none, c, 1) := by
  unfold step_refresh; rw [if_pos ⟨hat, hrt⟩, hr]; simp [hpw]

lemma step_refresh_authfail_nopw (w : AuthWorld) (c : Creds)
    (hat : c.accessToken = "") (hrt : c.refreshToken ≠ "")
    (hr : w.refresh c.refreshToken = .error .argusAuth)
    (hpw : c.password = "") :
    step_refresh w c = (some .argusAuth, c, 1) := by
  unfold step_refresh; rw [if_pos ⟨hat, hrt⟩, hr]; simp [hpw]

lemma step_refresh_otherfail (w : AuthWorld) (c : Creds) (e : PyErr)
    (hat : c.accessToken = "") (hrt : c.refreshToken ≠ "")
    (hr : w.refresh c.refreshToken = .error e) (hne : e ≠ .argusAuth) :
    step_refresh w c = (some e, c, 1) := by
  unfold step_refresh; rw [if_pos ⟨hat, hrt⟩, hr]
  cases e <;> simp_all

lemma step_login_skip (w : AuthWorld) (c1 : Creds) (r : Nat)
    (h : ¬(c1.accessToken = "" ∧ c1.password ≠ "")) :
    step_login w none c1 r = ⟨none, c1, r, 0⟩ := by
  unfold step_login; rw [if_neg h]

lemma step_login_ok (w : AuthWorld) (c1 : Creds) (r : Nat) (rt at_ : String)
    (ha : c1.accessToken = "") (hp : c1.password ≠ "")
    (hl : w.login c1.user c1.password = .ok (rt, at_)) :
    step_login w none c1 r = ⟨none, ⟨c1.user, c1.password, rt, at_⟩, r, 1⟩ := by
  unfold step_login; rw [if_pos ⟨ha, hp⟩, hl]

lemma step_login_fail (w : AuthWorld) (c1 : Creds) (r : Nat) (e : PyErr)
    (ha : c1.accessToken = "") (hp : c1.password ≠ "")
    (hl : w.login c1.user c1.password = .error e) :
    step_login w none c1 r = ⟨some e, { c1 with refreshToken := "" }, r, 1⟩ := by
  unfold step_login; rw [if_pos ⟨ha, hp⟩, hl]

lemma step_login_refreshCalls (w : AuthWorld) (err? : Option PyErr)
    (c1 : Creds) (r : Nat) : (step_login w err? c1 r).refreshCalls = r := by
  cases err? with
  | some e => rfl
  | none =>
      simp only [step_login]
      split
      · cases hl : w.login c1.user c1.password with
        | ok p => obtain ⟨rt, at_⟩ := p; simp [hl]
        | error e => simp [hl]
      · rfl

lemma auto_auth_of_err {α : Type} (w : AuthWorld)
    (target : Creds → Except PyErr α) (c : Creds) (e : PyErr)
    (h : (acquire w c).err = some e) :
    auto_auth w target c = ⟨.error e, (acquire w c).creds,
      (acquire w c).refreshCalls, (acquire w c).loginCalls, 0⟩ := by
  simp only [auto_auth]; rw [h]

lemma auto_auth_of_ok {α : Type} (w : AuthWorld)
    (target : Creds → Except PyErr α) (c : Creds)
    (h : (acquire w c).err = none) :
    auto_auth w target c = ⟨(do_target target (acquire w c).creds).1,
      (do_target target (acquire w c).creds).2,
      (acquire w c).refreshCalls, (acquire w c).loginCalls, 1⟩ := by
  simp only [auto_auth]; rw [h]

lemma do_target_auth {α : Type} (target : Creds → Except PyErr α) (c : Creds)
    (h : target c = .error .argusAuth) :
    do_target target c = (.error .argusAuth, { c with accessToken := "" }) := by
  unfold do_target; rw [h]

lemma retry_auth_of_auth {α : Type} (f : Creds → AuthResult α) (c : Creds)
    (h : (f c).result = .error .argusAuth) :
    retry_auth f c = ⟨(f (f c).creds).result, (f (f c).creds).creds, 2⟩ := by
  simp only [retry_auth]; rw [h]

lemma retry_auth_of_ok {α : Type} (f : Creds → AuthResult α) (c : Creds)
    (v : α) (h : (f c).result = .ok v) :
    retry_auth f c = ⟨.ok v, (f c).creds, 1⟩ := by
  simp only [retry_auth]; rw [h]

lemma retry_auth_of_other {α : Type} (f : Creds → AuthResult α) (c : Creds)
    (e : PyErr) (hne : e ≠ .argusAuth) (h : (f c).result = .error e) :
    retry_auth f c = ⟨.error e, (f c).creds, 1⟩ := by
  simp only [retry_auth]; rw [h]
  cases e <;> simp_all

/-- C1: for every authenticated call: (1) when the access token is absent
and a refresh token is present, exactly one refresh call is attempted first;
(2) when that refresh fails with an authentication error and a password is
present, the session falls through to a fresh login — exactly one login
call — and a successful login stores both the returned refresh token and
access token; (3) when no password is present the refresh failure
propagates immediately with no login and no target call; (4) when an access
token is already present, zero refresh and zero login calls occur before
the target call. -/
theorem claim_C1 {α : Type} (w : AuthWorld) (target : Creds → Except PyErr α)
    (c : Creds) :
    (c.accessToken = "" → c.refreshToken ≠ "" →
      (auto_auth w target c).refreshCalls = 1) ∧
    (c.accessToken = "" → c.refreshToken ≠ "" →
      w.refresh c.refreshToken = .error .argusAuth → c.password ≠ "" →
      (auto_auth w target c).loginCalls = 1 ∧
      (∀ rt at_, w.login c.user c.password = .ok (rt, at_) →
        (acquire w c).err = none ∧
        (acquire w c).creds.refreshToken = rt ∧
        (acquire w c).creds.accessToken = at_)) ∧
    (c.accessToken = "" → c.refreshToken ≠ "" →
      w.refresh c.refreshToken = .error .argusAuth → c.password = "" →
      (auto_auth w target c).result = .error .argusAuth ∧
      (auto_auth w target c).loginCalls = 0 ∧
      (auto_auth w target c).targetCalls = 0) ∧
    (c.accessToken ≠ "" →
      (auto_auth w target c).refreshCalls = 0 ∧
      (auto_auth w target c).loginCalls = 0 ∧
      (auto_auth w target c).targetCalls = 1) := by
  have hcounts : (auto_auth w target c).refreshCalls = (acquire w c).refreshCalls ∧
      (auto_auth w target c).loginCalls = (acquire w c).loginCalls := by
    rcases h : (acquire w c).err with _ | e
    · rw [auto_auth_of_ok w target c h]; exact ⟨rfl, rfl⟩
    · rw [auto_auth_of_err w target c e h]; exact ⟨rfl, rfl⟩
  have hrc : (acquire w c).refreshCalls = (step_refresh w c).2.2 := by
    simp only [acquire]
    exact step_login_refreshCalls w _ _ _
  refine ⟨fun hat hrt => ?_, fun hat hrt href hpw => ?_,
    fun hat hrt href hpw => ?_, fun hat => ?_⟩
  · rw [hcounts.1, hrc]
    cases hr : w.refresh c.refreshToken with
    | ok tok => rw [step_refresh_ok w c tok hat hrt hr]
    | error e => cases e with
      | argusAuth =>
          by_cases hpw : c.password = ""
          · rw [step_refresh_authfail_nopw w c hat hrt hr hpw]
          · rw [step_refresh_authfail_pw w c hat hrt hr hpw]
      | argusNotFound => rw [step_refresh_otherfail w c _ hat hrt hr (by decide)]
      | argus => rw [step_refresh_otherfail w c _ hat hrt hr (by decide)]
      | valueError => rw [step_refresh_otherfail w c _ hat hrt hr (by decide)]
      | typeError => rw [step_refresh_otherfail w c _ hat hrt hr (by decide)]
      | keyError => rw [step_refresh_otherfail w c _ hat hrt hr (by decide)]
  · have hsr := step_refresh_authfail_pw w c hat hrt href hpw
    have hacq : acquire w c = step_login w none c 1 := by
      simp only [acquire]; rw [hsr]
    constructor
    · rw [hcounts.2, hacq]
      simp only [step_login]
      rw [if_pos ⟨hat, hpw⟩]
      cases hl : w.login c.user c.password with
      | ok p => obtain ⟨rt, at_⟩ := p; simp [hl]
      | error e => simp [hl]
    · intro rt at_ hl
      have heq : acquire w c = ⟨none, ⟨c.user, c.password, rt, at_⟩, 1, 1⟩ := by
        rw [hacq, step_login_ok w c 1 rt at_ hat hpw hl]
      exact ⟨by rw [heq], by rw [heq], by rw [heq]⟩
  · have hsr := step_refresh_authfail_nopw w c hat hrt href hpw
    have heq : acquire w c = ⟨some .argusAuth, c, 1, 0⟩ := by
      simp only [acquire]; rw [hsr]; rfl
    have ha := auto_auth_of_err w target c .argusAuth (by rw [heq])
    exact ⟨by rw [ha], by rw [ha, heq], by rw [ha]⟩
  · have hsr := step_refresh_skip w c (fun h => hat h.1)
    have heq : acquire w c = ⟨none, c, 0, 0⟩ := by
      simp only [acquire]; rw [hsr]
      exact step_login_skip w c 0 (fun h => hat h.1)
    have ha := auto_auth_of_ok w target c (by rw [heq])
    exact ⟨by rw [ha, heq], by rw [ha, heq], by rw [ha]⟩

/-- C1 witness: instantiated on a session with a stale refresh token and a
valid password against a world whose refresh call is rejected and whose
login succeeds. -/
theorem claim_C1_witness :
    (auto_auth authW1 tgtAt2 credsPw).loginCalls = 1 ∧
    (acquire authW1 credsPw).err = none ∧
    (acquire authW1 credsPw).creds.refreshToken = "rt2" ∧
    (acquire authW1 credsPw).creds.accessToken = "at2" := by
  have h := (claim_C1 authW1 tgtAt2 credsPw).2.1 rfl (by decide) rfl (by decide)
  have h2 := h.2 "rt2" "at2" rfl
  exact ⟨h.1, h2.1, h2.2.1, h2.2.2⟩

/-- C2: through the retry layer, an attempt that fails with an
authentication error is retried exactly once more, re-running the full
`auto_auth` chain from the state the first attempt left behind, and the
second attempt's outcome (including a second consecutive authentication
failure) is surfaced unmodified; a non-authentication failure is never
retried and propagates immediately on the first occurrence. -/
theorem claim_C2 {α : Type} (w : AuthWorld) (target : Creds → Except PyErr α)
    (c : Creds) :
    ((auto_auth w target c).result = .error .argusAuth →
      (request w target c).attempts = 2 ∧
      (request w target c).result =
        (auto_auth w target (auto_auth w target c).creds).result ∧
      (request w target c).creds =
        (auto_auth w target (auto_auth w target c).creds).creds) ∧
    (∀ e : PyErr, e ≠ .argusAuth → (auto_auth w target c).result = .error e →
      (request w target c).attempts = 1 ∧
      (request w target c).result = .error e) ∧
    (∀ v : α, (auto_auth w target c).result = .ok v →
      (request w target c).attempts = 1 ∧
      (request w target c).result = .ok v) := by
  refine ⟨fun hfail => ?_, fun e hne hfail => ?_, fun v hok => ?_⟩
  · have h := retry_auth_of_auth (auto_auth w target) c hfail
    unfold request
    rw [h]
    exact ⟨rfl, rfl, rfl⟩
  · have h := retry_auth_of_other (auto_auth w target) c e hne hfail
    unfold request
    rw [h]
    exact ⟨rfl, rfl⟩
  · have h := retry_auth_of_ok (auto_auth w target) c v hok
    unfold request
    rw [h]
    exact ⟨rfl, rfl⟩

/-- C2 witness: a session whose stale access token is rejected once;
instantiated so the first attempt's auth failure triggers exactly one
retry, which then succeeds after the password-login fallback; and a generic
failure on a fresh call is surfaced with a single attempt. -/
theorem claim_C2_witness :
    (request authW1 tgtAt2 credsStale).attempts = 2 ∧
    (request authW1 tgtAt2 credsStale).result =
      (auto_auth authW1 tgtAt2 (auto_auth authW1 tgtAt2 credsStale).creds).result ∧
    (request authW1 tgtGeneric credsTok).attempts = 1 ∧
    (request authW1 tgtGeneric credsTok).result = .error .argus := by
  have h1 := (claim_C2 authW1 tgtAt2 credsStale).1 rfl
  have h2 := (claim_C2 authW1 tgtGeneric credsTok).2.1 PyErr.argus (by decide) rfl
  exact ⟨h1.1, h1.2.1, h2.1, h2.2⟩

/-- C3: whenever the token-acquisition phase completes and the target call,
performed with an access token attached, fails with an authentication
error: that failure is propagated (after exactly one target call, with no
inline retry), the access token is cleared, and the refresh token, username
and password keep the values they had just before the call. -/
theorem claim_C3 {α : Type} (w : AuthWorld) (target : Creds → Except PyErr α)
    (c c' : Creds) (hacq : (acquire w c).err = none)
    (hc' : (acquire w c).creds = c') (htok : c'.accessToken ≠ "")
    (hfail : target c' = .error .argusAuth) :
    (auto_auth w target c).result = .error .argusAuth ∧
    (auto_auth w target c).creds.accessToken = "" ∧
    (auto_auth w target c).creds.refreshToken = c'.refreshToken ∧
    (auto_auth w target c).creds.user = c'.user ∧
    (auto_auth w target c).creds.password = c'.password ∧
    (auto_auth w target c).targetCalls = 1 := by
  have ha := auto_auth_of_ok w target c hacq
  rw [ha, hc', do_target_auth target c' hfail]
  exact ⟨rfl, rfl, rfl, rfl, rfl, rfl⟩

/-- C3 witness: a session already holding an access token whose target call
is rejected: the access token is cleared, the other credentials survive,
and the failure propagates after one target call. -/
theorem claim_C3_witness :
    (auto_auth authW2 tgtGenericAuth credsTok).result = .error .argusAuth ∧
    (auto_auth authW2 tgtGenericAuth credsTok).creds.accessToken = "" ∧
    (auto_auth authW2 tgtGenericAuth credsTok).creds.refreshToken = credsTok.refreshToken ∧
    (auto_auth authW2 tgtGenericAuth credsTok).creds.user = credsTok.user ∧
    (auto_auth authW2 tgtGenericAuth credsTok).creds.password = credsTok.password ∧
    (auto_auth authW2 tgtGenericAuth credsTok).targetCalls = 1 :=
  claim_C3 authW2 tgtGenericAuth credsTok credsTok rfl rfl (by decide) rfl

end Argus
